import Mathlib

/-!
Verification of the session-lifecycle manager, request router and tool
adapters of the Google-Tasks MCP gateway (`src/server.js`), via a shallow
embedding: JS `Map`s become functions `String → Option _`, `setTimeout`
deadlines become explicit `Nat` timestamps (milliseconds), and the event
handlers (`touchSession`, the TTL-expiry callback, the `res.on('close')`
handlers) become pure state transformers.
-/

namespace McpServer

/-- JS string truthiness for optional strings: `undefined`/`null` and the
empty string are falsy; a non-empty string is truthy and is kept. -/
def truthy? : Option String → Option String
  | none => none
  | some s => if s = "" then none else some s

/-- A transport instance (`StreamableHTTPServerTransport`).  `tag` models
object identity, `sessionId` the transport's session id, and `closeFails`
whether its `close()` call throws. -/
structure Transport where
  sessionId : String
  tag : Nat
  closeFails : Bool
deriving DecidableEq, Repr

/-- `transport.close()` — may throw (modelled as `Except`). -/
def closeTransport (tr : Transport) : Except String Unit :=
  if tr.closeFails then .error "close failed" else .ok ()

/-- `try { transport.close() } catch { }` — the failure is swallowed. -/
def tryClose (tr : Transport) : Unit :=
  match closeTransport tr with
  | .ok _ => ()
  | .error _ => ()

/-- The server's mutable session state: `sessions` (sessionId → transport)
and `sessionTimers` (sessionId → deadline of the pending one-shot timer,
in ms). -/
@[ext]
structure SrvState where
  sessions : String → Option Transport
  sessionTimers : String → Option Nat

/-- `const TTL_MS = 10 * 60 * 1000` — the fixed 10-minute idle TTL. -/
def TTL_MS : Nat := 10 * 60 * 1000

/-- Initial state: both maps empty. -/
def emptyState : SrvState :=
  { sessions := fun _ => none, sessionTimers := fun _ => none }

/-- `touchSession(sessionId, transport)` at time `now`: no-op for a falsy
id; otherwise clears any pending timer for the id and arms a fresh
one-shot timer with deadline `now + TTL_MS`. -/
def touchSession (now : Nat) (sessionId : String) (_transport : Transport)
    (s : SrvState) : SrvState :=
  if sessionId = "" then s
  else
    { sessions := s.sessions,
      sessionTimers := fun k =>
        if k = sessionId then some (now + TTL_MS) else s.sessionTimers k }

/-- The body of the TTL timer callback armed by `touchSession`: closes the
captured transport (failure swallowed) and deletes the id from both maps. -/
def expireSession (sessionId : String) (tr : Transport) (s : SrvState) :
    SrvState :=
  let _ := tryClose tr
  { sessions := fun k => if k = sessionId then none else s.sessions k,
    sessionTimers := fun k => if k = sessionId then none else s.sessionTimers k }

/-- The `onsessioninitialized(sessionId)` callback of a freshly created
transport: registers the session in the map, then touches it. -/
def initSession (sessionId : String) (tr : Transport) (now : Nat)
    (s : SrvState) : SrvState :=
  touchSession now sessionId tr
    { s with sessions := fun k => if k = sessionId then some tr else s.sessions k }

/-- The `res.on('close')` handler installed by `handleSessionReq` (shared
by `GET /mcp` and `DELETE /mcp`): if the transport has a session id,
clears its timer, removes the id from both maps and closes the transport,
swallowing a close failure. -/
def handleSessionReqOnClose (tr : Transport) (s : SrvState) : SrvState :=
  if tr.sessionId = "" then s
  else
    let _ := tryClose tr
    { sessions := fun k => if k = tr.sessionId then none else s.sessions k,
      sessionTimers := fun k => if k = tr.sessionId then none else s.sessionTimers k }

/-- The `res.on('close')` handler installed by `POST /mcp`: only logs;
the state is untouched (the session is preserved until TTL expiry). -/
def postMcpOnClose (_tr : Option Transport) (s : SrvState) : SrvState := s

/-- `app.get('/mcp', ..., handleSessionReq)` — close handler of a GET. -/
def getMcpOnClose : Transport → SrvState → SrvState := handleSessionReqOnClose

/-- `app.delete('/mcp', ..., handleSessionReq)` — close handler of a DELETE. -/
def deleteMcpOnClose : Transport → SrvState → SrvState := handleSessionReqOnClose

/-- The lifecycle operations that mutate the session maps. -/
inductive Op where
  | init (sid : String) (tr : Transport) (now : Nat)
  | touch (sid : String) (tr : Transport) (now : Nat)
  | expire (sid : String) (tr : Transport)
  | reqClose (tr : Transport)
deriving Repr

/-- One lifecycle operation applied to the state. -/
def step (s : SrvState) : Op → SrvState
  | .init sid tr now => initSession sid tr now s
  | .touch sid tr now => touchSession now sid tr s
  | .expire sid tr => expireSession sid tr s
  | .reqClose tr => handleSessionReqOnClose tr s

/-- A sequence of lifecycle operations. -/
def run (s : SrvState) (ops : List Op) : SrvState := ops.foldl step s

/-! ### Request router: `requireKey` and the `POST /mcp` dispatch -/

/-- The relevant fields of an incoming request for the key check. -/
structure KeyReq where
  method : String
  queryKey : Option String
  xApiKey : Option String
  authorization : Option String
deriving DecidableEq, Repr

/-- Outcome of a middleware: pass the request on, or reject with a status
and a plain-text body. -/
inductive RouteOutcome where
  | next
  | reject (status : Nat) (body : String)
deriving DecidableEq, Repr

/-- JS `toLowerCase`, at the character-list level. -/
def lowerChars (s : String) : List Char := s.toList.map Char.toLower

/-- JS `trim`: strip whitespace from both ends. -/
def trimChars (cs : List Char) : List Char :=
  ((cs.dropWhile Char.isWhitespace).reverse.dropWhile Char.isWhitespace).reverse

/-- `auth?.toLowerCase().startsWith('bearer ') ? auth.slice(7).trim() : null`. -/
def bearerKey (req : KeyReq) : Option String :=
  match req.authorization with
  | none => none
  | some auth =>
      if ("bearer ".toList).isPrefixOf (lowerChars auth) then
        some (String.mk (trimChars (auth.toList.drop 7)))
      else none

/-- `const key = q || x || bearer` — the supplied key, with JS `||`
precedence: truthy `?key=` query parameter, then truthy `X-API-Key`
header, then the bearer token of the `Authorization` header. -/
def resolvedKey (req : KeyReq) : Option String :=
  match truthy? req.queryKey with
  | some q => some q
  | none =>
      match truthy? req.xApiKey with
      | some x => some x
      | none => bearerKey req

/-- `requireKey(req, res, next)`: OPTIONS requests pass; otherwise the
request passes iff `API_KEY` is truthy and the resolved key equals it,
and is rejected with `401 unauthorized` otherwise. -/
def requireKey (apiKey : Option String) (req : KeyReq) : RouteOutcome :=
  if req.method = "OPTIONS" then .next
  else
    match truthy? apiKey with
    | some ak =>
        if resolvedKey req = some ak then .next
        else .reject 401 "unauthorized"
    | none => .reject 401 "unauthorized"

/-- `const transport = headerId ? sessions.get(headerId) : null`. -/
def resolveHeader (headerId : Option String) (s : SrvState) : Option Transport :=
  match headerId with
  | some h => s.sessions h
  | none => none

/-- Outcome of the `POST /mcp` session dispatch (`src/server.js` lines
321-345): either the structured JSON-RPC bad-request envelope, or the
request is handed to a transport (a fresh one on the initiation path, the
looked-up one on the continuation path). -/
inductive PostOutcome where
  | badRequest (status : Nat) (code : Int) (message : String)
  | handled (tr : Transport) (isNew : Bool)
deriving DecidableEq, Repr

/-- The session dispatch of `POST /mcp`: resolve the `Mcp-Session-Id`
header against the sessions map; with no transport, a non-initiation body
is refused with the 400 JSON-RPC error envelope and an initiation body
creates a fresh transport; an existing transport handles the request. -/
def postMcp (headerId : Option String) (isInit : Bool) (newTr : Transport)
    (s : SrvState) : PostOutcome :=
  match resolveHeader headerId s with
  | none =>
      if !isInit then
        .badRequest 400 (-32000)
          "Bad Request: No valid session ID provided (missing initialize)"
      else .handled newTr true
  | some tr => .handled tr false

/-! ### Tool adapter layer: `authHeader`, `search`, `fetch`, `create_task` -/

/-- An OAuth2 token set (`savedTokens`), opaque here. -/
structure Tokens where
  refreshToken : String
deriving DecidableEq, Repr

/-- HTTP headers built by `authHeader` on success. -/
structure Headers where
  authorization : String
  contentType : String
deriving DecidableEq, Repr

/-- The authorization holder's state plus the identity provider's reply:
`getAccessToken` returns `some token` when `at && at.token` is truthy. -/
structure AuthEnv where
  savedTokens : Option Tokens
  getAccessToken : Tokens → Option String

/-- Result of `authHeader()`: `{ headers: null, error }` or
`{ headers, error: null }`. -/
inductive AuthHeaderResult where
  | err (msg : String)
  | ok (headers : Headers)
deriving DecidableEq, Repr

/-- `authHeader()`: no saved tokens → "Not authorized"; no usable access
token → "No access token"; otherwise bearer headers. -/
def authHeader (env : AuthEnv) : AuthHeaderResult :=
  match env.savedTokens with
  | none => .err "Not authorized. Visit /oauth2/start first."
  | some toks =>
      match env.getAccessToken toks with
      | none => .err "No access token (re-auth at /oauth2/start)"
      | some token =>
          .ok { authorization := "Bearer " ++ token,
                contentType := "application/json" }

/-- A task list as returned by the remote API (`j.items` element). -/
structure TaskList where
  id : String
deriving DecidableEq, Repr

/-- A task as returned by the remote API; `title` may be absent. -/
structure Task where
  id : String
  title : Option String
deriving DecidableEq, Repr

/-- Body of a task-creation request (`{ title, notes, due }`). -/
structure CreateBody where
  title : String
  notes : Option String
  due : Option String
deriving DecidableEq, Repr

/-- The remote Google-Tasks API, abstracted over the outbound `fetch`
calls the handlers make: `taskLists` is `listTaskLists(headers)` (already
`j.items || []`), `tasks headers listId showCompleted` the per-list task
listing, `fetchTask` and `createTask` the single-task endpoints. -/
structure TasksApi where
  taskLists : Headers → List TaskList
  tasks : Headers → String → Bool → List Task
  fetchTask : Headers → String → String → Task
  createTask : Headers → String → CreateBody → Task

/-- A search hit: `{ listId: l.id, task: t }`. -/
structure Hit where
  listId : String
  task : Task
deriving DecidableEq, Repr

/-- One text content item of a tool result; JSON serialization is kept
structural (`jsonHits` for `JSON.stringify(hits…)`, `jsonTask` for a
serialized task object). -/
inductive TextContent where
  | str (s : String)
  | jsonHits (hs : List Hit)
  | jsonTask (t : Task)
deriving DecidableEq, Repr

/-- A tool handler's return value: `{ content, isError? }`. -/
structure ToolResult where
  content : List TextContent
  isError : Bool
deriving DecidableEq, Repr

/-- JS `hay.includes(needle)`: the needle occurs contiguously in the hay. -/
def containsSeq (needle : List Char) : List Char → Bool
  | [] => needle.isEmpty
  | c :: rest => needle.isPrefixOf (c :: rest) || containsSeq needle rest

/-- `!query || String(t.title || '').toLowerCase().includes(query.toLowerCase())`. -/
def titleMatches (query : Option String) (t : Task) : Bool :=
  match truthy? query with
  | none => true
  | some q =>
      containsSeq (lowerChars q) (lowerChars (t.title.getD ""))

/-- The hit-collection loops of the `search` handler: resolve the target
lists (`listId ? [{ id: listId }] : await listTaskLists(headers)`), then
push every task passing the title filter, list by list, into `hits`. -/
def searchHits (headers : Headers) (api : TasksApi) (query : Option String)
    (listId : Option String) (showC : Bool) : List Hit :=
  let lists : List TaskList :=
    match truthy? listId with
    | some lid => [{ id := lid }]
    | none => api.taskLists headers
  lists.foldl
    (fun acc l =>
      (api.tasks headers l.id showC).foldl
        (fun acc2 t =>
          if titleMatches query t then acc2 ++ [{ listId := l.id, task := t }]
          else acc2)
        acc)
    []

/-- The `search` tool handler: default `showCompleted` to `true`, obtain
the auth header (an auth error becomes an error-flagged result), collect
the hits and return the first 25 as serialized JSON text. -/
def searchTool (env : AuthEnv) (api : TasksApi) (query : Option String)
    (listId : Option String) (showCompleted : Option Bool) : ToolResult :=
  let showC := match showCompleted with | some b => b | none => true
  match authHeader env with
  | .err e => { content := [.str e], isError := true }
  | .ok headers =>
      { content := [.jsonHits ((searchHits headers api query listId showC).take 25)],
        isError := false }

/-- The `fetch` tool handler: obtain the auth header, then return the
single task's serialized detail. -/
def fetchTool (env : AuthEnv) (api : TasksApi) (listId taskId : String) :
    ToolResult :=
  match authHeader env with
  | .err e => { content := [.str e], isError := true }
  | .ok headers =>
      { content := [.jsonTask (api.fetchTask headers listId taskId)],
        isError := false }

/-- The `create_task` tool handler: obtain the auth header; with a falsy
`listId`, resolve the account's first list, failing with an error-flagged
"No task lists found." result when there is none; then create the task in
the target list. -/
def createTool (env : AuthEnv) (api : TasksApi) (listId : Option String)
    (title : String) (notes due : Option String) : ToolResult :=
  match authHeader env with
  | .err e => { content := [.str e], isError := true }
  | .ok headers =>
      match truthy? listId with
      | some lid =>
          { content := [.jsonTask (api.createTask headers lid
              { title := title, notes := notes, due := due })],
            isError := false }
      | none =>
          match api.taskLists headers with
          | [] => { content := [.str "No task lists found."], isError := true }
          | l :: _ =>
              { content := [.jsonTask (api.createTask headers l.id
                  { title := title, notes := notes, due := due })],
                isError := false }

/-! ### Spec-side definitions and concrete fixtures -/

/-- The search result as the spec words it: the target lists are the
single given list when one is provided (a non-empty id), otherwise all of
the account's lists; tasks are listed per list with `showCompleted`
defaulting to `true`; when a query is given only tasks whose title
contains it case-insensitively are retained; the result is the first 25
matches in list order across lists, list-before-list. -/
def searchSpec (headers : Headers) (api : TasksApi) (query : Option String)
    (listId : Option String) (showCompleted : Option Bool) : List Hit :=
  let showC := showCompleted.getD true
  let targets : List TaskList :=
    match truthy? listId with
    | some lid => [{ id := lid }]
    | none => api.taskLists headers
  (targets.flatMap fun l =>
      ((api.tasks headers l.id showC).filter (titleMatches query)).map
        fun t => { listId := l.id, task := t }).take 25

/-- An operation leaves session id `sid` alone (no init, expiry or
request-close release aimed at it). -/
def opKeeps (sid : String) : Op → Prop
  | .init sid' _ _ => sid' ≠ sid
  | .touch _ _ _ => True
  | .expire sid' _ => sid' ≠ sid
  | .reqClose tr => tr.sessionId ≠ sid

/-- Well-formedness of an operation as produced by the server: the
initialization callback only ever receives ids from `randomUUID()`, which
are never empty. -/
def wfOp : Op → Prop
  | .init sid _ _ => sid ≠ ""
  | _ => True

/-- A concrete transport for session id `"a"`. -/
def tr0 : Transport := { sessionId := "a", tag := 0, closeFails := false }

/-- Authorization holder with no saved tokens. -/
def env0 : AuthEnv := { savedTokens := none, getAccessToken := fun _ => none }

/-- Authorization holder whose token refresh yields no access token. -/
def envStale : AuthEnv :=
  { savedTokens := some { refreshToken := "r" }, getAccessToken := fun _ => none }

/-- Authorization holder with a working token. -/
def env1 : AuthEnv :=
  { savedTokens := some { refreshToken := "r" }, getAccessToken := fun _ => some "tok" }

/-- The headers `authHeader` builds for `env1`. -/
def hdr1 : Headers :=
  { authorization := "Bearer tok", contentType := "application/json" }

/-- A remote API with zero task lists. -/
def api0 : TasksApi :=
  { taskLists := fun _ => []
    tasks := fun _ _ _ => []
    fetchTask := fun _ _ tid => { id := tid, title := none }
    createTask := fun _ _ b => { id := "new", title := some b.title } }

/-- A remote API with two task lists and a few titled tasks. -/
def api1 : TasksApi :=
  { taskLists := fun _ => [{ id := "l1" }, { id := "l2" }]
    tasks := fun _ lid _ =>
      if lid = "l1" then
        [{ id := "t1", title := some "Groceries" },
         { id := "t2", title := some "Laundry" }]
      else [{ id := "t3", title := some "Buy groceries" }]
    fetchTask := fun _ _ tid => { id := tid, title := none }
    createTask := fun _ _ b => { id := "new", title := some b.title } }

/-! ## Helper lemmas -/

theorem step_keeps {sid : String} {s : SrvState} {op : Op} (h : opKeeps sid op) :
    (step s op).sessions sid = s.sessions sid := by
  cases op with
  | init sid' tr now =>
      simp only [opKeeps] at h
      by_cases h0 : sid' = ""
      · subst h0; simp [step, initSession, touchSession, Ne.symm h]
      · simp [step, initSession, touchSession, h0, Ne.symm h]
  | touch sid' tr now =>
      by_cases h0 : sid' = "" <;> simp [step, touchSession, h0]
  | expire sid' tr =>
      simp only [opKeeps] at h
      simp [step, expireSession, Ne.symm h]
  | reqClose tr =>
      simp only [opKeeps] at h
      by_cases h0 : tr.sessionId = "" <;>
        simp [step, handleSessionReqOnClose, h0, Ne.symm h]

theorem run_keeps {sid : String} (ops : List Op) {s : SrvState}
    (h : ∀ op ∈ ops, opKeeps sid op) :
    (run s ops).sessions sid = s.sessions sid := by
  induction ops generalizing s with
  | nil => rfl
  | cons op ops ih =>
      have : run s (op :: ops) = run (step s op) ops := rfl
      rw [this, ih (fun o ho => h o (List.mem_cons_of_mem _ ho)),
        step_keeps (h op (List.mem_cons_self _ _))]

theorem step_covers {s : SrvState} {op : Op} (hwf : wfOp op)
    (hinv : ∀ k, (s.sessions k).isSome = true → (s.sessionTimers k).isSome = true) :
    ∀ k, ((step s op).sessions k).isSome = true →
      ((step s op).sessionTimers k).isSome = true := by
  intro k hk
  cases op with
  | init sid tr now =>
      simp only [wfOp] at hwf
      simp only [step, initSession, touchSession, if_neg hwf] at hk ⊢
      by_cases hks : k = sid
      · simp [hks]
      · simp only [hks, if_false, if_neg hks] at hk ⊢
        exact hinv k hk
  | touch sid tr now =>
      by_cases h0 : sid = ""
      · simp only [step, touchSession, if_pos h0] at hk ⊢
        exact hinv k hk
      · simp only [step, touchSession, if_neg h0] at hk ⊢
        by_cases hks : k = sid
        · simp [hks]
        · simp only [if_neg hks]
          exact hinv k hk
  | expire sid tr =>
      simp only [step, expireSession] at hk ⊢
      by_cases hks : k = sid
      · simp [hks] at hk
      · simp only [if_neg hks] at hk ⊢
        exact hinv k hk
  | reqClose tr =>
      by_cases h0 : tr.sessionId = ""
      · simp only [step, handleSessionReqOnClose, if_pos h0] at hk ⊢
        exact hinv k hk
      · simp only [step, handleSessionReqOnClose, if_neg h0] at hk ⊢
        by_cases hks : k = tr.sessionId
        · simp [hks] at hk
        · simp only [if_neg hks] at hk ⊢
          exact hinv k hk

theorem run_covers (ops : List Op) {s : SrvState}
    (hwf : ∀ op ∈ ops, wfOp op)
    (hinv : ∀ k, (s.sessions k).isSome = true → (s.sessionTimers k).isSome = true) :
    ∀ k, ((run s ops).sessions k).isSome = true →
      ((run s ops).sessionTimers k).isSome = true := by
  induction ops generalizing s with
  | nil => exact hinv
  | cons op ops ih =>
      have : run s (op :: ops) = run (step s op) ops := rfl
      rw [this]
      exact ih (fun o ho => hwf o (List.mem_cons_of_mem _ ho))
        (step_covers (hwf op (List.mem_cons_self _ _)) hinv)

theorem foldl_push_eq {α β : Type} (p : α → Bool) (f : α → β)
    (ts : List α) (acc : List β) :
    ts.foldl (fun a t => if p t then a ++ [f t] else a) acc
      = acc ++ (ts.filter p).map f := by
  induction ts generalizing acc with
  | nil => simp
  | cons t ts ih => by_cases hp : p t <;> simp [hp, ih]

theorem nested_fold_eq (headers : Headers) (api : TasksApi) (q : Option String)
    (showC : Bool) (ls : List TaskList) (acc : List Hit) :
    ls.foldl (fun a l =>
        (api.tasks headers l.id showC).foldl
          (fun a2 t =>
            if titleMatches q t then a2 ++ [{ listId := l.id, task := t }]
            else a2) a) acc
      = acc ++ ls.flatMap
          (fun l => ((api.tasks headers l.id showC).filter (titleMatches q)).map
            fun t => { listId := l.id, task := t }) := by
  induction ls generalizing acc with
  | nil => simp
  | cons l ls ih =>
      rw [List.foldl_cons, ih, foldl_push_eq]
      simp [List.append_assoc]

theorem searchHits_eq (headers : Headers) (api : TasksApi) (q lid : Option String)
    (showC : Bool) :
    searchHits headers api q lid showC
      = (match truthy? lid with
          | some l => [TaskList.mk l]
          | none => api.taskLists headers).flatMap
          (fun l => ((api.tasks headers l.id showC).filter (titleMatches q)).map
            fun t => { listId := l.id, task := t }) := by
  simp only [searchHits]
  rw [nested_fold_eq]
  simp

/-! ## Claim theorems -/

/-- C3: `touchSession` at time `now` with a non-falsy id arms a fresh
one-shot timer with deadline `now + TTL_MS` (the fixed 10-minute TTL),
displacing any prior schedule for that id, leaving other ids' timers and
the sessions map untouched; with a falsy id it is a no-op. -/
theorem touchSession_spec (now : Nat) (sid : String) (tr : Transport)
    (s : SrvState) :
    (sid ≠ "" →
      (touchSession now sid tr s).sessionTimers sid = some (now + TTL_MS) ∧
      (∀ k, k ≠ sid →
        (touchSession now sid tr s).sessionTimers k = s.sessionTimers k) ∧
      (touchSession now sid tr s).sessions = s.sessions) ∧
    touchSession now "" tr s = s ∧
    TTL_MS = 10 * 60 * 1000 := by
  refine ⟨fun h => ?_, by simp [touchSession], rfl⟩
  rw [touchSession, if_neg h]
  exact ⟨by simp, fun k hk => by simp [hk], rfl⟩

/-- C3 witness: touching session `"a"` at time 5 arms a timer with
deadline `5 + TTL_MS`. -/
theorem touchSession_spec_witness :
    (touchSession 5 "a" tr0 emptyState).sessionTimers "a" = some (5 + TTL_MS) :=
  ((touchSession_spec 5 "a" tr0 emptyState).1 (by decide)).1

/-- C5: the release path of `handleSessionReq`'s close handler is
idempotent, leaves both maps without an entry for the released id (also
when the id was never created), and its result does not depend on whether
the transport's `close()` throws (the failure is swallowed, and the
function is total, so nothing propagates to the caller). -/
theorem release_idempotent (tr : Transport) (s : SrvState) :
    handleSessionReqOnClose tr (handleSessionReqOnClose tr s)
      = handleSessionReqOnClose tr s ∧
    (tr.sessionId ≠ "" →
      (handleSessionReqOnClose tr s).sessions tr.sessionId = none ∧
      (handleSessionReqOnClose tr s).sessionTimers tr.sessionId = none) ∧
    (s.sessions tr.sessionId = none →
      (handleSessionReqOnClose tr s).sessions tr.sessionId = none) ∧
    (s.sessionTimers tr.sessionId = none →
      (handleSessionReqOnClose tr s).sessionTimers tr.sessionId = none) ∧
    (∀ b, handleSessionReqOnClose { tr with closeFails := b } s
        = handleSessionReqOnClose tr s) := by
  by_cases h : tr.sessionId = ""
  · refine ⟨?_, fun hne => absurd h hne, fun hs => ?_, fun ht => ?_, fun b => ?_⟩
    · simp [handleSessionReqOnClose, h]
    · simpa [handleSessionReqOnClose, h] using hs
    · simpa [handleSessionReqOnClose, h] using ht
    · simp [handleSessionReqOnClose, h]
  · refine ⟨?_, fun _ => ⟨?_, ?_⟩, fun hs => ?_, fun ht => ?_, fun b => ?_⟩
    · apply SrvState.ext <;> funext k <;> by_cases hk : k = tr.sessionId <;>
        simp [handleSessionReqOnClose, h, hk]
    · simp [handleSessionReqOnClose, h]
    · simp [handleSessionReqOnClose, h]
    · simp [handleSessionReqOnClose, h]
    · simp [handleSessionReqOnClose, h]
    · apply SrvState.ext <;> funext k <;> simp [handleSessionReqOnClose, h]

/-- C5 witness: releasing the never-created id `"a"` from the empty state
leaves both maps without an entry for it. -/
theorem release_idempotent_witness :
    (handleSessionReqOnClose tr0 emptyState).sessions "a" = none :=
  (release_idempotent tr0 emptyState).2.1 (by decide) |>.1

/-- C6: a `POST /mcp` whose session header resolves to no transport and
whose body is not an initiation message is answered with the structured
400 JSON-RPC error envelope (code -32000, missing-initialization message),
not a 500. -/
theorem postMcp_missing_session_badRequest (headerId : Option String)
    (isInit : Bool) (newTr : Transport) (s : SrvState)
    (hres : resolveHeader headerId s = none) (hinit : isInit = false) :
    postMcp headerId isInit newTr s
      = .badRequest 400 (-32000)
          "Bad Request: No valid session ID provided (missing initialize)" := by
  simp [postMcp, hres, hinit]

/-- C6 witness: a header-less, non-initiation POST against the empty
state gets the 400 envelope. -/
theorem postMcp_missing_session_badRequest_witness :
    postMcp none false tr0 emptyState
      = .badRequest 400 (-32000)
          "Bad Request: No valid session ID provided (missing initialize)" :=
  postMcp_missing_session_badRequest none false tr0 emptyState rfl rfl

/-- C1 counterexample: a live session `"a"` is removed from the sessions
map (and its timer cleared) by the close handler of a mere `GET /mcp`
connection, although no DELETE teardown and no TTL expiry occurred. -/
theorem getClose_releases_session_cex :
    (initSession "a" tr0 0 emptyState).sessions "a" = some tr0 ∧
    (getMcpOnClose tr0 (initSession "a" tr0 0 emptyState)).sessions "a" = none ∧
    (getMcpOnClose tr0 (initSession "a" tr0 0 emptyState)).sessionTimers "a"
      = none := by
  refine ⟨?_, ?_, ?_⟩ <;> decide

/-- C1 (amended): the close handler of a `POST /mcp` connection only logs
and leaves the session state untouched, so the client can reconnect with
the same session id; the close of a `GET /mcp` or `DELETE /mcp`
connection, however, releases the session (both routes share
`handleSessionReq`), as does TTL expiry. -/
theorem connection_close_policy (tr : Transport) (s : SrvState) :
    postMcpOnClose (some tr) s = s ∧
    postMcpOnClose none s = s ∧
    (tr.sessionId ≠ "" →
      (getMcpOnClose tr s).sessions tr.sessionId = none ∧
      (getMcpOnClose tr s).sessionTimers tr.sessionId = none ∧
      (deleteMcpOnClose tr s).sessions tr.sessionId = none ∧
      (deleteMcpOnClose tr s).sessionTimers tr.sessionId = none) ∧
    (∀ sid, (expireSession sid tr s).sessions sid = none ∧
      (expireSession sid tr s).sessionTimers sid = none) := by
  refine ⟨rfl, rfl, fun h => ?_, fun sid => ?_⟩
  · refine ⟨?_, ?_, ?_, ?_⟩ <;>
      simp [getMcpOnClose, deleteMcpOnClose, handleSessionReqOnClose, h]
  · exact ⟨by simp [expireSession], by simp [expireSession]⟩

/-- C1 witness: the POST close handler preserves a freshly initialized
session, and the GET close handler releases it. -/
theorem connection_close_policy_witness :
    postMcpOnClose (some tr0) (initSession "a" tr0 0 emptyState)
      = initSession "a" tr0 0 emptyState ∧
    (getMcpOnClose tr0 (initSession "a" tr0 0 emptyState)).sessions "a" = none :=
  ⟨(connection_close_policy tr0 (initSession "a" tr0 0 emptyState)).1,
   ((connection_close_policy tr0 (initSession "a" tr0 0 emptyState)).2.2.1
     (by decide)).1⟩

/-- C2 counterexample: with no API key configured, a GET request —
even one supplying a key — is rejected with `401 unauthorized`, not
passed through: the check fails closed instead of being disabled. -/
theorem requireKey_no_configured_key_cex :
    requireKey none
        { method := "GET", queryKey := some "k", xApiKey := none,
          authorization := none }
      = .reject 401 "unauthorized" := by
  decide

/-- C2 (amended): OPTIONS requests always bypass the check; when a
non-empty API key is configured, a non-OPTIONS request passes iff the
supplied key — with precedence `?key=`, then `X-API-Key`, then
`Authorization: Bearer` — equals it, and is otherwise rejected with 401
and plain-text body `unauthorized`; when no (or an empty) API key is
configured, every non-OPTIONS request is rejected with 401. -/
theorem requireKey_spec (apiKey : Option String) (req : KeyReq) :
    (req.method = "OPTIONS" → requireKey apiKey req = .next) ∧
    (∀ a, truthy? apiKey = some a → req.method ≠ "OPTIONS" →
      (requireKey apiKey req = .next ↔ resolvedKey req = some a) ∧
      (resolvedKey req ≠ some a →
        requireKey apiKey req = .reject 401 "unauthorized")) ∧
    (truthy? apiKey = none → req.method ≠ "OPTIONS" →
      requireKey apiKey req = .reject 401 "unauthorized") ∧
    (∀ q, truthy? req.queryKey = some q → resolvedKey req = some q) ∧
    (truthy? req.queryKey = none →
      (∀ x, truthy? req.xApiKey = some x → resolvedKey req = some x) ∧
      (truthy? req.xApiKey = none → resolvedKey req = bearerKey req)) := by
  refine ⟨fun h => by simp [requireKey, h], fun a ha hm => ⟨⟨?_, ?_⟩, ?_⟩,
    fun ha hm => by simp [requireKey, hm, ha], fun q hq => by simp [resolvedKey, hq],
    fun hq => ⟨fun x hx => by simp [resolvedKey, hq, hx],
      fun hx => by simp [resolvedKey, hq, hx]⟩⟩
  · intro hnext
    by_contra hne
    simp [requireKey, hm, ha, hne] at hnext
  · intro hres
    simp [requireKey, hm, ha, hres]
  · intro hne
    simp [requireKey, hm, ha, hne]

/-- C2 witness: with key `s3cret` configured, a POST supplying it via the
query parameter passes the check. -/
theorem requireKey_spec_witness :
    requireKey (some "s3cret")
        { method := "POST", queryKey := some "s3cret", xApiKey := none,
          authorization := none }
      = .next :=
  ((requireKey_spec (some "s3cret")
      { method := "POST", queryKey := some "s3cret", xApiKey := none,
        authorization := none }).2.1 "s3cret" (by decide)
    (by decide)).1.mpr (by decide)

/-- C4: after the initialization callback registers a session, a lookup
of its id returns the very transport instance registered, and it keeps
doing so across any further lifecycle operations that do not release that
id (touches of any session, and inits/expiries/closes of other ids — in
particular for the whole TTL window, during which no expiry of this id
fires); after the DELETE teardown's close handler runs for the session,
a lookup of the id finds nothing. -/
theorem session_lookup_roundtrip (sid : String) (tr : Transport) (now : Nat)
    (s : SrvState) (ops : List Op) (hops : ∀ op ∈ ops, opKeeps sid op) :
    (run (initSession sid tr now s) ops).sessions sid = some tr ∧
    (∀ t' s', t'.sessionId = sid → sid ≠ "" →
      (deleteMcpOnClose t' s').sessions sid = none ∧
      (deleteMcpOnClose t' s').sessionTimers sid = none) := by
  constructor
  · rw [run_keeps ops hops]
    by_cases h0 : sid = "" <;> simp [initSession, touchSession, h0]
  · intro t' s' h1 h2
    subst h1
    constructor <;> simp [deleteMcpOnClose, handleSessionReqOnClose, h2]

/-- C4 witness: session `"a"` still resolves to its transport after a
touch, and is gone right after the DELETE close handler. -/
theorem session_lookup_roundtrip_witness :
    (run (initSession "a" tr0 0 emptyState) [Op.touch "a" tr0 3]).sessions "a"
      = some tr0 ∧
    (deleteMcpOnClose tr0 (initSession "a" tr0 0 emptyState)).sessions "a"
      = none := by
  have h := session_lookup_roundtrip "a" tr0 0 emptyState [Op.touch "a" tr0 3]
    (by intro op hop; simp at hop; subst hop; exact trivial)
  exact ⟨h.1, (h.2 tr0 (initSession "a" tr0 0 emptyState) rfl (by decide)).1⟩

/-- C10 counterexample: after init of session `"a"`, a TTL expiry, and a
re-touch of `"a"` (the code's unconditional re-touch after
`handleRequest`, racing the expiry), the timers map has an entry for
`"a"` while the sessions map does not — the two maps' key sets are not
always equal. -/
theorem session_timer_iff_cex :
    (run emptyState
        [Op.init "a" tr0 0, Op.expire "a" tr0, Op.touch "a" tr0 5]).sessions "a"
      = none ∧
    (run emptyState
        [Op.init "a" tr0 0, Op.expire "a" tr0, Op.touch "a" tr0 5]).sessionTimers
        "a"
      = some (5 + TTL_MS) := by
  constructor <;> decide

/-- C10 (amended): one direction of the claimed invariant does hold over
every sequence of well-formed lifecycle operations from the empty state:
every id with an entry in the sessions map also has an entry in the
timers map (every path registering a session also arms its timer, and
every path removing one removes both); the converse can fail transiently
when a touch races a release. -/
theorem sessions_subset_timers (ops : List Op) (k : String)
    (hwf : ∀ op ∈ ops, wfOp op)
    (hk : ((run emptyState ops).sessions k).isSome = true) :
    ((run emptyState ops).sessionTimers k).isSome = true :=
  run_covers ops hwf (fun _ h => by simp [emptyState] at h) k hk

/-- C10 witness: after a single init of `"a"`, the timers map has an
entry for `"a"`. -/
theorem sessions_subset_timers_witness :
    ((run emptyState [Op.init "a" tr0 0]).sessionTimers "a").isSome = true :=
  sessions_subset_timers [Op.init "a" tr0 0] "a"
    (by intro op hop; simp at hop; subst hop
        exact (by decide : ("a" : String) ≠ ""))
    (by decide)

/-- C7: when authorization succeeds, the `search` tool returns exactly the
spec's result: the target lists are the given one when provided (else all
of the account's lists), tasks are listed per list with `showCompleted`
defaulting to `true`, only tasks whose title contains the query
case-insensitively are retained (all of them when no query is given), and
the output is the first 25 matches in list order across lists,
list-before-list. -/
theorem searchTool_refines_spec (env : AuthEnv) (api : TasksApi)
    (q lid : Option String) (sc : Option Bool) (h : Headers)
    (hauth : authHeader env = .ok h) :
    searchTool env api q lid sc
      = { content := [.jsonHits (searchSpec h api q lid sc)],
          isError := false } := by
  cases sc <;> simp [searchTool, hauth, searchSpec, searchHits_eq]

/-- C7 witness: searching for `"groc"` over the two-list account returns
the case-insensitive title matches, list by list. -/
theorem searchTool_refines_spec_witness :
    searchTool env1 api1 (some "groc") none none
      = { content := [.jsonHits (searchSpec hdr1 api1 (some "groc") none none)],
          isError := false } ∧
    searchSpec hdr1 api1 (some "groc") none none
      = [{ listId := "l1", task := { id := "t1", title := some "Groceries" } },
         { listId := "l2", task := { id := "t3", title := some "Buy groceries" } }] :=
  ⟨searchTool_refines_spec env1 api1 (some "groc") none none hdr1 rfl,
   by decide⟩

/-- C8: when authorization succeeds and no listId is given, `create_task`
against an account with zero lists returns the error-flagged
"No task lists found." result (a value, not an exception), and against an
account with at least one list creates the task in the first list. -/
theorem createTool_first_list_or_error (env : AuthEnv) (api : TasksApi)
    (title : String) (notes due : Option String) (h : Headers)
    (hauth : authHeader env = .ok h) :
    (api.taskLists h = [] →
      createTool env api none title notes due
        = { content := [.str "No task lists found."], isError := true }) ∧
    (∀ l ls, api.taskLists h = l :: ls →
      createTool env api none title notes due
        = { content := [.jsonTask (api.createTask h l.id
              { title := title, notes := notes, due := due })],
            isError := false }) := by
  constructor
  · intro hl; simp [createTool, hauth, truthy?, hl]
  · intro l ls hl; simp [createTool, hauth, truthy?, hl]

/-- C8 witness: with zero lists the error-flagged result is returned;
with lists `l1, l2` the task is created in `l1`. -/
theorem createTool_first_list_or_error_witness :
    createTool env1 api0 none "Milk" none none
      = { content := [.str "No task lists found."], isError := true } ∧
    createTool env1 api1 none "Milk" none none
      = { content := [.jsonTask (api1.createTask hdr1 "l1"
            { title := "Milk", notes := none, due := none })],
          isError := false } :=
  ⟨(createTool_first_list_or_error env1 api0 "Milk" none none hdr1 rfl).1 rfl,
   (createTool_first_list_or_error env1 api1 "Milk" none none hdr1 rfl).2
     { id := "l1" } [{ id := "l2" }] rfl⟩

/-- C9: each tool (search, fetch, create_task) first calls `authHeader`;
with no saved token set it returns the error-flagged "Not authorized"
result, and with a token set but no obtainable access token it returns
the distinct error-flagged "No access token" result — in both cases as a
returned value of the total handler function, not an exception. -/
theorem tools_auth_error_results (env : AuthEnv) (api : TasksApi)
    (q lid : Option String) (sc : Option Bool) (flid ftid : String)
    (clid : Option String) (title : String) (notes due : Option String) :
    (env.savedTokens = none →
      searchTool env api q lid sc
        = { content := [.str "Not authorized. Visit /oauth2/start first."],
            isError := true } ∧
      fetchTool env api flid ftid
        = { content := [.str "Not authorized. Visit /oauth2/start first."],
            isError := true } ∧
      createTool env api clid title notes due
        = { content := [.str "Not authorized. Visit /oauth2/start first."],
            isError := true }) ∧
    (∀ t, env.savedTokens = some t → env.getAccessToken t = none →
      searchTool env api q lid sc
        = { content := [.str "No access token (re-auth at /oauth2/start)"],
            isError := true } ∧
      fetchTool env api flid ftid
        = { content := [.str "No access token (re-auth at /oauth2/start)"],
            isError := true } ∧
      createTool env api clid title notes due
        = { content := [.str "No access token (re-auth at /oauth2/start)"],
            isError := true }) ∧
    "Not authorized. Visit /oauth2/start first."
      ≠ "No access token (re-auth at /oauth2/start)" := by
  refine ⟨fun h => ?_, fun t h1 h2 => ?_, by decide⟩
  · refine ⟨?_, ?_, ?_⟩ <;>
      simp [searchTool, fetchTool, createTool, authHeader, h]
  · refine ⟨?_, ?_, ?_⟩ <;>
      simp [searchTool, fetchTool, createTool, authHeader, h1, h2]

/-- C9 witness: with no tokens the search tool returns the error-flagged
"Not authorized" result; with a stale token set the fetch tool returns
the distinct "No access token" result. -/
theorem tools_auth_error_results_witness :
    searchTool env0 api0 none none none
      = { content := [.str "Not authorized. Visit /oauth2/start first."],
          isError := true } ∧
    fetchTool envStale api0 "l" "t"
      = { content := [.str "No access token (re-auth at /oauth2/start)"],
          isError := true } :=
  ⟨((tools_auth_error_results env0 api0 none none none "l" "t" none "x"
      none none).1 rfl).1,
   ((tools_auth_error_results envStale api0 none none none "l" "t" none "x"
      none none).2.1 { refreshToken := "r" } rfl rfl).2.1⟩

end McpServer
